import Mathlib

/-!
Shallow embedding of the wynddao gauge voting and allocation engine.

The repository ships the multitest harness (contracts/gauge/src/multitest/suite.rs),
which drives the gauge contract through its messages (PlaceVotes, AddOption,
Execute, StopGauge, UpdateGauge, migration) and queries (SelectedSet,
LastExecutedSet, Vote, ...).  The gauge contract code itself
(crate::contract / crate::state) is not part of the sources, so the state
machine below is modelled from the specification (spec.md sections 3 to 4.6),
with the message and configuration shapes mirroring the harness.

Numeric conventions: cosmwasm `Decimal` weights and supports are modelled as
`Rat`; timestamps (seconds) and voting power as `Nat`.
-/

/-- Modelled from the spec: one (option, weight) pair of a voter's allocation,
mirroring `crate::state::Vote { option, weight }` used by the harness's
`place_votes` (suite.rs lines 302-323); the contract state type is missing
from the sources. -/
structure Vote where
  option : String
  weight : Rat
deriving DecidableEq

/-- Gauge configuration as built by the harness's
`instantiate_adapter_and_return_config` (suite.rs lines 487-513). -/
structure GaugeConfig where
  title : String
  adapter : String
  epoch_size : Nat
  min_percent_selected : Option Rat
  max_options_selected : Nat
  max_available_percentage : Option Rat
deriving DecidableEq

/-- Modelled from the spec: the per-gauge record of section 3 (the contract's
gauge state type is missing from the sources): tunables, status
(`Active`/`Stopped` as `is_stopped`), and the `next_epoch` schedule. -/
structure Gauge where
  title : String
  adapter : String
  epoch_size : Nat
  min_percent_selected : Option Rat
  max_options_selected : Nat
  max_available_percentage : Option Rat
  is_stopped : Bool
  next_epoch : Nat
deriving DecidableEq

/-- Modelled from the spec: full state of one gauge arena (section 3): owner,
gauge record, insertion-ordered option registry, vote ledger (voter to
allocation), and the cached last executed set. -/
structure GaugeState where
  owner : String
  gauge : Gauge
  options : List String
  votes : List (String × List Vote)
  last_executed_set : Option (List (String × Rat))
deriving DecidableEq

/-- Modelled from the spec: the error taxonomy of sections 6 and 7. -/
inductive GaugeError where
  | GaugeStopped
  | AlreadyStopped
  | EpochNotReached
  | InvalidVoteWeight
  | OptionNotFound
  | DuplicateOption
  | Unauthorized
  | AdapterFailure
deriving DecidableEq

/-- Modelled from the spec: gauge creation (`CreateGauge(GaugeConfig)` with
seeded options): status starts `Active`, no last executed set, first
execution scheduled at `first_epoch`. -/
def instantiate_gauge (owner : String) (cfg : GaugeConfig) (options : List String)
    (first_epoch : Nat) : GaugeState :=
  { owner := owner
    gauge :=
      { title := cfg.title
        adapter := cfg.adapter
        epoch_size := cfg.epoch_size
        min_percent_selected := cfg.min_percent_selected
        max_options_selected := cfg.max_options_selected
        max_available_percentage := cfg.max_available_percentage
        is_stopped := false
        next_epoch := first_epoch }
    options := options
    votes := []
    last_executed_set := none }

/-- Configuration returned by the harness's
`instantiate_adapter_and_return_config` (suite.rs lines 505-512):
7-day epochs, `min_percent_selected = 5%`, `max_options_selected = 10`. -/
def suite_gauge_config (adapter : String) (max_available_percentage : Option Rat) :
    GaugeConfig :=
  { title := "gauge"
    adapter := adapter
    epoch_size := 7 * 86400
    min_percent_selected := some (5 / 100)
    max_options_selected := 10
    max_available_percentage := max_available_percentage }

/-- Modelled from the spec: total weight a stored allocation assigns to one
option (section 4.3). -/
def weight_of (alloc : List Vote) (option : String) : Rat :=
  ((alloc.filter (fun v => v.option == option)).map (fun v => v.weight)).sum

/-- Modelled from the spec: one voter's contribution to one option's tally,
`power * weight` (section 4.3); voters with no stored allocation contribute
nothing. -/
def voter_tally (power : String → Nat) (st : GaugeState) (voter : String)
    (option : String) : Rat :=
  match st.votes.lookup voter with
  | none => 0
  | some alloc => (power voter : Rat) * weight_of alloc option

/-- Modelled from the spec: an option's total weighted support, folded over
every voter with a stored allocation (section 4.3). -/
def option_tally (power : String → Nat) (st : GaugeState) (option : String) : Rat :=
  (st.votes.map (fun r => (power r.1 : Rat) * weight_of r.2 option)).sum

/-- Modelled from the spec: the grand total of support across all options
(section 4.3). -/
def grand_total (power : String → Nat) (st : GaugeState) : Rat :=
  (st.options.map (option_tally power st)).sum

/-- Modelled from the spec: survival filter of the selection algorithm
(sections 4.1 and 4.4 steps 1-2): an option with no support never appears,
and an option whose share is below `min_percent_selected` is discarded. -/
def survives (g : Gauge) (total s : Rat) : Bool :=
  decide (0 < s) &&
    (match g.min_percent_selected with
     | none => true
     | some m => decide (m ≤ s / total))

/-- Modelled from the spec: comparator of the selection algorithm (section 4.4
step 3): descending total support, ties broken by insertion index. -/
def selection_le (a b : Nat × String × Rat) : Bool :=
  decide (b.2.2 < a.2.2) || (decide (a.2.2 = b.2.2) && decide (a.1 ≤ b.1))

/-- Modelled from the spec: the option registry scored with each option's
total support, keeping insertion indices (sections 4.3 and 4.4). -/
def scored_options (power : String → Nat) (st : GaugeState) : List (Nat × String × Rat) :=
  st.options.enum.map (fun p => (p.1, p.2, option_tally power st p.2))

/-- Modelled from the spec: scored options surviving steps 1-2 of the
selection algorithm (section 4.4). -/
def surviving_options (power : String → Nat) (st : GaugeState) : List (Nat × String × Rat) :=
  (scored_options power st).filter (fun t => survives st.gauge (grand_total power st) t.2.2)

/-- Modelled from the spec: selection algorithm steps 1-4 (section 4.4):
fail closed on a zero grand total, filter, order by descending support with
insertion-order tie-break, truncate to `max_options_selected`.  The cap of
step 5 is applied afterwards by `cap_amount`. -/
def selection_ranked (power : String → Nat) (st : GaugeState) : List (Nat × String × Rat) :=
  if grand_total power st = 0 then []
  else ((surviving_options power st).mergeSort selection_le).take st.gauge.max_options_selected

/-- Modelled from the spec: availability-ceiling cap (section 4.4 step 5):
clamp a winner's amount at `max_available_percentage` of the grand total;
no redistribution of the excess. -/
def cap_amount (g : Gauge) (total s : Rat) : Rat :=
  match g.max_available_percentage with
  | none => s
  | some c => min s (c * total)

/-- Modelled from the spec: the `SelectedSet` (section 4.4 step 6): ranked
winners with the cap applied entrywise. -/
def selected_set (power : String → Nat) (st : GaugeState) : List (String × Rat) :=
  (selection_ranked power st).map
    (fun t => (t.2.1, cap_amount st.gauge (grand_total power st) t.2.2))

/-- Modelled from the spec: validity of a submitted allocation (section 4.2):
every weight strictly positive, no duplicate options, weights summing to at
most one. -/
def valid_votes (vs : List Vote) : Bool :=
  vs.all (fun v => decide (0 < v.weight)) &&
    decide (vs.map Vote.option).Nodup &&
    decide ((vs.map (fun v => v.weight)).sum ≤ 1)

/-- Modelled from the spec: `PlaceVotes` (section 4.2): rejected on a stopped
gauge; `none` clears the voter's row; otherwise the allocation is validated
(`InvalidVoteWeight`), every referenced option must exist (`OptionNotFound`),
and the prior allocation for the voter is replaced wholesale. -/
def place_votes (st : GaugeState) (voter : String) (votes : Option (List Vote)) :
    Except GaugeError GaugeState :=
  match votes with
  | none =>
    if st.gauge.is_stopped = true then Except.error GaugeError.GaugeStopped
    else Except.ok { st with votes := st.votes.filter (fun r => !(r.1 == voter)) }
  | some vs =>
    if st.gauge.is_stopped = true then Except.error GaugeError.GaugeStopped
    else if valid_votes vs = false then Except.error GaugeError.InvalidVoteWeight
    else if vs.all (fun v => st.options.contains v.option) = false then
      Except.error GaugeError.OptionNotFound
    else Except.ok
      { st with votes := (voter, vs) :: st.votes.filter (fun r => !(r.1 == voter)) }

/-- Modelled from the spec: `AddOption` (section 4.1): rejected on a stopped
gauge, rejected when already present, otherwise appended to the registry in
insertion order. -/
def add_option (st : GaugeState) (option : String) : Except GaugeError GaugeState :=
  if st.gauge.is_stopped = true then Except.error GaugeError.GaugeStopped
  else if st.options.contains option then Except.error GaugeError.DuplicateOption
  else Except.ok { st with options := st.options ++ [option] }

/-- Modelled from the spec: `StopGauge` (section 4.5): owner-only, `Active`
to `Stopped`, rejected when already stopped. -/
def stop_gauge (st : GaugeState) (sender : String) : Except GaugeError GaugeState :=
  if sender ≠ st.owner then Except.error GaugeError.Unauthorized
  else if st.gauge.is_stopped = true then Except.error GaugeError.AlreadyStopped
  else Except.ok { st with gauge := { st.gauge with is_stopped := true } }

/-- Fields of an `UpdateGauge` message (suite.rs lines 516-538): `none` means
leave the tunable unchanged. -/
structure GaugeUpdate where
  epoch_size : Option Nat
  min_percent_selected : Option Rat
  max_options_selected : Option Nat
  max_available_percentage : Option Rat
deriving DecidableEq

/-- Modelled from the spec: `UpdateGauge` (section 4.5): owner-only, active
gauges only, mutates any subset of the tunables, does not reset
`next_epoch`. -/
def update_gauge (st : GaugeState) (sender : String) (u : GaugeUpdate) :
    Except GaugeError GaugeState :=
  if sender ≠ st.owner then Except.error GaugeError.Unauthorized
  else if st.gauge.is_stopped = true then Except.error GaugeError.GaugeStopped
  else Except.ok
    { st with gauge :=
      { st.gauge with
          epoch_size := u.epoch_size.getD st.gauge.epoch_size
          min_percent_selected :=
            match u.min_percent_selected with
            | some m => some m
            | none => st.gauge.min_percent_selected
          max_options_selected := u.max_options_selected.getD st.gauge.max_options_selected
          max_available_percentage :=
            match u.max_available_percentage with
            | some c => some c
            | none => st.gauge.max_available_percentage } }

/-- Modelled from the spec: `Execute` (section 4.5): fails on a stopped gauge,
fails with `EpochNotReached` before `next_epoch`, otherwise tallies and
selects, dispatches the selected set to the adapter (here a boolean oracle;
a refusal aborts the whole operation), persists it as the last executed set
and advances `next_epoch` by exactly `epoch_size`. -/
def execute (power : String → Nat) (adapter_ok : List (String × Rat) → Bool)
    (now : Nat) (st : GaugeState) : Except GaugeError GaugeState :=
  if st.gauge.is_stopped = true then Except.error GaugeError.GaugeStopped
  else if now < st.gauge.next_epoch then Except.error GaugeError.EpochNotReached
  else if adapter_ok (selected_set power st) = false then
    Except.error GaugeError.AdapterFailure
  else Except.ok
    { st with
        last_executed_set := some (selected_set power st)
        gauge := { st.gauge with next_epoch := st.gauge.next_epoch + st.gauge.epoch_size } }

/-- Modelled from the spec: migration entry point (section 4.6): an optional
`next_epoch` override realigns the schedule; nothing else changes. -/
def migrate (st : GaugeState) (next_epoch_override : Option Nat) : GaugeState :=
  match next_epoch_override with
  | some t => { st with gauge := { st.gauge with next_epoch := t } }
  | none => st

/-- Modelled from the spec: all-or-nothing transaction framing (sections 5
and 7): a failed operation commits nothing, so the caller's state is the
prior state together with the reported error. -/
def run (st : GaugeState) (r : Except GaugeError GaugeState) :
    GaugeState × Option GaugeError :=
  match r with
  | Except.ok st2 => (st2, none)
  | Except.error e => (st, some e)

/-- The `SelectedSet` query of the harness (suite.rs lines 359-369), read-only
and ungated. -/
def query_selected_set (power : String → Nat) (st : GaugeState) : List (String × Rat) :=
  selected_set power st

/-- The `LastExecutedSet` query of the harness (suite.rs lines 371-381):
absent until the first successful `Execute`. -/
def query_last_executed_set (st : GaugeState) : Option (List (String × Rat)) :=
  st.last_executed_set

/-- The `Vote` query of the harness (suite.rs lines 399-413): the stored
allocation of one voter, or absent. -/
def query_vote (st : GaugeState) (voter : String) : Option (List Vote) :=
  st.votes.lookup voter

/-- Anatomy of a successful `Execute`: the gauge was active, the epoch gate
had been reached, the adapter accepted the dispatched set, and the new state
is the old one with the last executed set cached and `next_epoch` advanced. -/
theorem execute_ok_shape (power : String → Nat) (adapter_ok : List (String × Rat) → Bool)
    (now : Nat) (st st2 : GaugeState) (h : execute power adapter_ok now st = Except.ok st2) :
    st.gauge.is_stopped = false ∧ st.gauge.next_epoch ≤ now ∧
      adapter_ok (selected_set power st) = true ∧
      st2 = { st with
        last_executed_set := some (selected_set power st)
        gauge := { st.gauge with next_epoch := st.gauge.next_epoch + st.gauge.epoch_size } } := by
  unfold execute at h
  split at h
  · simp at h
  next h1 =>
    split at h
    · simp at h
    next h2 =>
      split at h
      · simp at h
      next h3 =>
        cases h
        exact ⟨by simpa using h1, Nat.not_lt.mp h2, by simpa using h3, rfl⟩

/-- Anatomy of a successful `PlaceVotes` with a fresh allocation: the gauge
was active, the allocation is valid, every referenced option exists, and the
ledger row for the voter is replaced wholesale. -/
theorem place_votes_some_ok_shape (st : GaugeState) (voter : String) (vs : List Vote)
    (st2 : GaugeState) (h : place_votes st voter (some vs) = Except.ok st2) :
    st.gauge.is_stopped = false ∧ valid_votes vs = true ∧
      vs.all (fun v => st.options.contains v.option) = true ∧
      st2 = { st with votes := (voter, vs) :: st.votes.filter (fun r => !(r.1 == voter)) } := by
  simp only [place_votes] at h
  split at h
  · simp at h
  next h1 =>
    split at h
    · simp at h
    next h2 =>
      split at h
      · simp at h
      next h3 =>
        cases h
        exact ⟨by simpa using h1, by simpa using h2, by simpa using h3, rfl⟩

/-- Anatomy of a successful `PlaceVotes` clearing an allocation: the gauge was
active and the voter's row is removed. -/
theorem place_votes_none_ok_shape (st : GaugeState) (voter : String) (st2 : GaugeState)
    (h : place_votes st voter none = Except.ok st2) :
    st.gauge.is_stopped = false ∧
      st2 = { st with votes := st.votes.filter (fun r => !(r.1 == voter)) } := by
  simp only [place_votes] at h
  split at h
  · simp at h
  next h1 =>
    cases h
    exact ⟨by simpa using h1, rfl⟩

/-- Anatomy of a successful `StopGauge`: the sender is the owner, the gauge
was active, and only the status flag changes. -/
theorem stop_gauge_ok_shape (st : GaugeState) (sender : String) (st2 : GaugeState)
    (h : stop_gauge st sender = Except.ok st2) :
    sender = st.owner ∧ st.gauge.is_stopped = false ∧
      st2 = { st with gauge := { st.gauge with is_stopped := true } } := by
  unfold stop_gauge at h
  split at h
  · simp at h
  next h1 =>
    split at h
    · simp at h
    next h2 =>
      cases h
      exact ⟨by simpa using h1, by simpa using h2, rfl⟩

/-- C2: a successful `Execute` advances `next_epoch` to exactly the prior
`next_epoch` plus `epoch_size` — strictly additive from the prior schedule
and independent of the current block time, so a late execution still
advances the schedule by a single epoch. -/
theorem next_epoch_strictly_additive (power : String → Nat)
    (adapter_ok : List (String × Rat) → Bool) (now : Nat) (st st2 : GaugeState)
    (h : execute power adapter_ok now st = Except.ok st2) :
    st2.gauge.next_epoch = st.gauge.next_epoch + st.gauge.epoch_size := by
  obtain ⟨-, -, -, rfl⟩ := execute_ok_shape power adapter_ok now st st2 h
  rfl

/-- C3: when the adapter dispatched to by `Execute` fails, the entire
operation aborts with no state change: the caller keeps the prior state
(so `next_epoch` is not advanced and the last executed set is not updated)
together with the reported adapter failure. -/
theorem execute_atomic_on_adapter_failure (power : String → Nat)
    (adapter_ok : List (String × Rat) → Bool) (now : Nat) (st : GaugeState)
    (hs : st.gauge.is_stopped = false) (he : st.gauge.next_epoch ≤ now)
    (hf : adapter_ok (selected_set power st) = false) :
    run st (execute power adapter_ok now st) = (st, some GaugeError.AdapterFailure) := by
  unfold execute
  rw [if_neg (by simp [hs]), if_neg (Nat.not_lt.mpr he), if_pos hf]
  rfl

/-- C5: an active gauge whose `next_epoch` lies in the future rejects
`Execute` with `EpochNotReached` and mutates nothing (for every adapter, so
the adapter is never consulted); in particular, after a successful `Execute`,
a second call before the advanced `next_epoch` fails the same way. -/
theorem epoch_gating (power : String → Nat) (adapter_ok : List (String × Rat) → Bool)
    (now : Nat) (st : GaugeState)
    (hs : st.gauge.is_stopped = false) (h : now < st.gauge.next_epoch) :
    run st (execute power adapter_ok now st) = (st, some GaugeError.EpochNotReached) ∧
    (∀ now1 st1 st2, execute power adapter_ok now1 st1 = Except.ok st2 →
      ∀ now2, now2 < st2.gauge.next_epoch →
        run st2 (execute power adapter_ok now2 st2) = (st2, some GaugeError.EpochNotReached)) := by
  constructor
  · unfold execute
    rw [if_neg (by simp [hs]), if_pos h]
    rfl
  · intro now1 st1 st2 hok now2 h2
    obtain ⟨hs1, -, -, rfl⟩ := execute_ok_shape power adapter_ok now1 st1 st2 hok
    unfold execute
    rw [if_neg (by simp [hs1]), if_pos h2]
    rfl

/-- C9: a zero grand total fails closed: the `SelectedSet` query returns the
empty sequence instead of an error, and no share is ever computed. -/
theorem zero_total_empty_selection (power : String → Nat) (st : GaugeState)
    (h : grand_total power st = 0) :
    query_selected_set power st = [] := by
  unfold query_selected_set selected_set selection_ranked
  rw [if_pos h]
  rfl

/-- The selection comparator is transitive. -/
theorem selection_le_trans (a b c : Nat × String × Rat)
    (hab : selection_le a b = true) (hbc : selection_le b c = true) :
    selection_le a c = true := by
  simp only [selection_le, Bool.or_eq_true, Bool.and_eq_true, decide_eq_true_eq] at *
  rcases hab with h1 | ⟨h1, h2⟩ <;> rcases hbc with h3 | ⟨h3, h4⟩
  · exact Or.inl (lt_trans h3 h1)
  · exact Or.inl (by rw [← h3]; exact h1)
  · exact Or.inl (by rw [h1]; exact h3)
  · exact Or.inr ⟨h1.trans h3, le_trans h2 h4⟩

/-- The selection comparator is total. -/
theorem selection_le_total (a b : Nat × String × Rat) :
    (selection_le a b || selection_le b a) = true := by
  simp only [selection_le, Bool.or_eq_true, Bool.and_eq_true, decide_eq_true_eq]
  rcases lt_trichotomy a.2.2 b.2.2 with h | h | h
  · exact Or.inr (Or.inl h)
  · rcases Nat.le_total a.1 b.1 with hi | hi
    · exact Or.inl (Or.inr ⟨h, hi⟩)
    · exact Or.inr (Or.inr ⟨h.symm, hi⟩)
  · exact Or.inl (Or.inl h)

/-- Scoring keeps the insertion indices: the first components of the scored
registry are exactly `0, 1, ...`. -/
theorem scored_options_map_fst (power : String → Nat) (st : GaugeState) :
    (scored_options power st).map Prod.fst = List.range st.options.length := by
  unfold scored_options
  rw [List.map_map]
  exact List.enum_map_fst st.options

/-- Insertion indices stay pairwise distinct through filtering. -/
theorem surviving_options_fst_nodup (power : String → Nat) (st : GaugeState) :
    ((surviving_options power st).map Prod.fst).Nodup := by
  have hsub : List.Sublist (surviving_options power st) (scored_options power st) :=
    List.filter_sublist _
  exact (hsub.map Prod.fst).nodup
    (by rw [scored_options_map_fst]; exact List.nodup_range _)

/-- Insertion indices stay pairwise distinct through the whole ranking
pipeline (filter, sort, truncate). -/
theorem selection_ranked_fst_nodup (power : String → Nat) (st : GaugeState) :
    ((selection_ranked power st).map Prod.fst).Nodup := by
  unfold selection_ranked
  split
  · simp
  · have hperm : ((surviving_options power st).mergeSort selection_le).Perm
        (surviving_options power st) := List.mergeSort_perm _ _
    have hn : (((surviving_options power st).mergeSort selection_le).map Prod.fst).Nodup :=
      (hperm.map Prod.fst).nodup_iff.mpr (surviving_options_fst_nodup power st)
    exact ((List.take_sublist _ _).map Prod.fst).nodup hn

/-- C4: the ranked output of the selection algorithm is strictly ordered:
every earlier entry has strictly larger total support, or equal support and
a strictly earlier insertion index into the option registry, so the ordering
(and hence the whole selection function) is deterministic. -/
theorem selection_order_deterministic (power : String → Nat) (st : GaugeState) :
    List.Pairwise
      (fun a b : Nat × String × Rat => b.2.2 < a.2.2 ∨ (a.2.2 = b.2.2 ∧ a.1 < b.1))
      (selection_ranked power st) := by
  have hle : List.Pairwise (fun a b => selection_le a b = true) (selection_ranked power st) := by
    unfold selection_ranked
    split
    · simp
    · exact (List.sorted_mergeSort selection_le_trans selection_le_total
        (surviving_options power st)).sublist (List.take_sublist _ _)
  have hne : List.Pairwise (fun a b : Nat × String × Rat => a.1 ≠ b.1)
      (selection_ranked power st) :=
    List.pairwise_map.mp (selection_ranked_fst_nodup power st)
  refine (hle.and hne).imp ?_
  intro a b hab
  obtain ⟨h1, h2⟩ := hab
  simp only [selection_le, Bool.or_eq_true, Bool.and_eq_true, decide_eq_true_eq] at h1
  rcases h1 with h1 | ⟨hs, hi⟩
  · exact Or.inl h1
  · exact Or.inr ⟨hs, Nat.lt_of_le_of_ne hi h2⟩

/-- C1: with `max_available_percentage = c` configured, the selected set is
exactly the uncapped selected set with each amount clamped entrywise at `c`
times the grand total: every winner's effective share is capped at the
ceiling, the excess is dropped rather than redistributed, and every entry
not exceeding the cap keeps the amount it would have had with no cap
configured. -/
theorem cap_no_redistribution (power : String → Nat) (st : GaugeState) (c : Rat)
    (h : st.gauge.max_available_percentage = some c) :
    selected_set power st =
      (selected_set power
          { st with gauge := { st.gauge with max_available_percentage := none } }).map
        (fun e => (e.1, min e.2 (c * grand_total power st))) ∧
    ∀ e ∈ selected_set power st, e.2 ≤ c * grand_total power st := by
  constructor
  · simp only [selected_set, List.map_map]
    refine List.map_congr_left ?_
    intro t _
    simp [cap_amount, h, Function.comp]
  · intro e he
    simp only [selected_set, List.mem_map] at he
    obtain ⟨t, -, rfl⟩ := he
    simp only [cap_amount, h]
    exact min_le_right _ _

/-- Removing a voter's row really removes it: a lookup for that voter in the
filtered ledger finds nothing. -/
theorem lookup_filter_ne_self (rows : List (String × List Vote)) (voter : String) :
    (rows.filter (fun r => !(r.1 == voter))).lookup voter = none := by
  induction rows with
  | nil => rfl
  | cons hd tl ih =>
    by_cases hh : hd.1 = voter
    · simpa [List.filter_cons, hh] using ih
    · have hh2 : (voter == hd.1) = false := beq_eq_false_iff_ne.mpr (fun e => hh e.symm)
      simp [List.filter_cons, hh, List.lookup, hh2, ih]

/-- An allocation mentioning no vote for an option assigns it zero weight. -/
theorem weight_of_not_mem (vs : List Vote) (opt : String)
    (h : opt ∉ vs.map Vote.option) : weight_of vs opt = 0 := by
  unfold weight_of
  have hnil : vs.filter (fun v => v.option == opt) = [] := by
    rw [List.filter_eq_nil_iff]
    intro v hv
    simp only [beq_iff_eq]
    intro he
    exact h (he ▸ List.mem_map_of_mem Vote.option hv)
  rw [hnil]
  rfl

/-- C6: stored allocations always keep every weight strictly positive, the
options pairwise distinct and the weights summing to at most one: a
`PlaceVotes` whose allocation breaks validity fails with `InvalidVoteWeight`
leaving the whole state (hence the voter's prior allocation) unchanged, a
successful one preserves the ledger invariant, and validity is exactly the
three conditions of the claim. -/
theorem vote_weight_invariant (st : GaugeState) (voter : String) (vs : List Vote)
    (hs : st.gauge.is_stopped = false)
    (hinv : ∀ r ∈ st.votes, valid_votes r.2 = true) :
    (valid_votes vs = false →
      run st (place_votes st voter (some vs)) = (st, some GaugeError.InvalidVoteWeight)) ∧
    (∀ st2, place_votes st voter (some vs) = Except.ok st2 →
      ∀ r ∈ st2.votes, valid_votes r.2 = true) ∧
    (valid_votes vs = true ↔
      (∀ v ∈ vs, 0 < v.weight) ∧ (vs.map Vote.option).Nodup ∧
        (vs.map (fun v => v.weight)).sum ≤ 1) := by
  refine ⟨?_, ?_, ?_⟩
  · intro hv
    simp only [place_votes]
    rw [if_neg (by simp [hs]), if_pos hv]
    rfl
  · intro st2 hok r hr
    obtain ⟨-, hv, -, rfl⟩ := place_votes_some_ok_shape st voter vs st2 hok
    rcases List.mem_cons.mp hr with rfl | hr2
    · exact hv
    · exact hinv r (List.mem_of_mem_filter hr2)
  · simp [valid_votes, List.all_eq_true, and_assoc]

/-- C7: a successful `PlaceVotes` with a fresh allocation replaces the
voter's prior allocation wholesale: afterwards the stored allocation is
exactly the new sequence, an option absent from the new allocation gets no
contribution from this voter in any subsequent tally, and clearing with
`None` removes the voter's allocation. -/
theorem place_votes_replace_semantics (power : String → Nat) (st : GaugeState)
    (voter : String) (vs : List Vote) (st2 : GaugeState)
    (h : place_votes st voter (some vs) = Except.ok st2) :
    query_vote st2 voter = some vs ∧
    (∀ opt, opt ∉ vs.map Vote.option → voter_tally power st2 voter opt = 0) ∧
    (∀ st3, place_votes st voter none = Except.ok st3 → query_vote st3 voter = none) := by
  obtain ⟨-, -, -, rfl⟩ := place_votes_some_ok_shape st voter vs st2 h
  refine ⟨?_, ?_, ?_⟩
  · simp [query_vote, List.lookup]
  · intro opt hopt
    simp only [voter_tally, query_vote, List.lookup, beq_self_eq_true]
    rw [weight_of_not_mem vs opt hopt]
    exact mul_zero _
  · intro st3 h3
    obtain ⟨-, rfl⟩ := place_votes_none_ok_shape st voter st3 h3
    exact lookup_filter_ne_self st.votes voter

/-- A failed operation leaves the caller's cached last executed set alone,
and a successful one does too as long as its result preserves the field. -/
theorem run_preserves_last (st0 : GaugeState) (r : Except GaugeError GaugeState)
    (h : ∀ stx, r = Except.ok stx → stx.last_executed_set = st0.last_executed_set) :
    ((run st0 r).1).last_executed_set = st0.last_executed_set := by
  cases r with
  | ok stx => exact h stx rfl
  | error e => rfl

/-- C8: `Stopped` is terminal: after a successful `StopGauge` the gauge is
stopped, its last executed set is retained, the read-only queries answer as
before, every mutating operation (`PlaceVotes`, `AddOption`, `Execute`)
fails with `GaugeStopped` leaving the state unchanged, repeated `StopGauge`
and `UpdateGauge` attempts also leave the state unchanged, and even a
migration keeps the gauge stopped. -/
theorem stopped_is_terminal (st : GaugeState) (sender : String) (st2 : GaugeState)
    (h : stop_gauge st sender = Except.ok st2) :
    st2.gauge.is_stopped = true ∧
    query_last_executed_set st2 = query_last_executed_set st ∧
    (∀ power, query_selected_set power st2 = query_selected_set power st) ∧
    (∀ voter votes, run st2 (place_votes st2 voter votes) = (st2, some GaugeError.GaugeStopped)) ∧
    (∀ o, run st2 (add_option st2 o) = (st2, some GaugeError.GaugeStopped)) ∧
    (∀ power adapter_ok now,
      run st2 (execute power adapter_ok now st2) = (st2, some GaugeError.GaugeStopped)) ∧
    (∀ s, (run st2 (stop_gauge st2 s)).1 = st2) ∧
    (∀ s u, (run st2 (update_gauge st2 s u)).1 = st2) ∧
    (∀ o, (migrate st2 o).gauge.is_stopped = true) := by
  obtain ⟨-, -, rfl⟩ := stop_gauge_ok_shape st sender st2 h
  refine ⟨rfl, rfl, fun power => rfl, ?_, ?_, ?_, ?_, ?_, ?_⟩
  · intro voter votes
    cases votes with
    | none => rfl
    | some vs => rfl
  · intro o
    rfl
  · intro power adapter_ok now
    rfl
  · intro s
    by_cases ho : s ≠ { st with gauge := { st.gauge with is_stopped := true } }.owner
    · simp [stop_gauge, run, ho]
    · simp [stop_gauge, run, ho]
  · intro s u
    by_cases ho : s ≠ { st with gauge := { st.gauge with is_stopped := true } }.owner
    · simp [update_gauge, run, ho]
    · simp [update_gauge, run, ho]
  · intro o
    cases o with
    | none => rfl
    | some t => rfl

/-- C10: the last executed set is absent at gauge creation, a successful
`Execute` overwrites it with exactly the selected set handed to the adapter,
and no other operation (`PlaceVotes`, `AddOption`, `StopGauge`,
`UpdateGauge`, migration), successful or failed, ever changes it. -/
theorem last_executed_set_lifecycle (power : String → Nat)
    (adapter_ok : List (String × Rat) → Bool) (now : Nat) (st st2 : GaugeState)
    (h : execute power adapter_ok now st = Except.ok st2) :
    query_last_executed_set st2 = some (selected_set power st) ∧
    (∀ owner cfg options first_epoch,
      query_last_executed_set (instantiate_gauge owner cfg options first_epoch) = none) ∧
    (∀ st0 voter votes,
      ((run st0 (place_votes st0 voter votes)).1).last_executed_set = st0.last_executed_set) ∧
    (∀ st0 o, ((run st0 (add_option st0 o)).1).last_executed_set = st0.last_executed_set) ∧
    (∀ st0 s, ((run st0 (stop_gauge st0 s)).1).last_executed_set = st0.last_executed_set) ∧
    (∀ st0 s u,
      ((run st0 (update_gauge st0 s u)).1).last_executed_set = st0.last_executed_set) ∧
    (∀ st0 o, (migrate st0 o).last_executed_set = st0.last_executed_set) := by
  obtain ⟨-, -, -, rfl⟩ := execute_ok_shape power adapter_ok now st st2 h
  refine ⟨rfl, fun owner cfg options first_epoch => rfl, ?_, ?_, ?_, ?_, ?_⟩
  · intro st0 voter votes
    refine run_preserves_last st0 _ ?_
    intro stx hok
    cases votes with
    | none => obtain ⟨-, rfl⟩ := place_votes_none_ok_shape st0 voter stx hok; rfl
    | some vs => obtain ⟨-, -, -, rfl⟩ := place_votes_some_ok_shape st0 voter vs stx hok; rfl
  · intro st0 o
    refine run_preserves_last st0 _ ?_
    intro stx hok
    unfold add_option at hok
    split at hok
    · simp at hok
    · split at hok
      · simp at hok
      · cases hok; rfl
  · intro st0 s
    refine run_preserves_last st0 _ ?_
    intro stx hok
    obtain ⟨-, -, rfl⟩ := stop_gauge_ok_shape st0 s stx hok
    rfl
  · intro st0 s u
    refine run_preserves_last st0 _ ?_
    intro stx hok
    unfold update_gauge at hok
    split at hok
    · simp at hok
    · split at hok
      · simp at hok
      · cases hok; rfl
  · intro st0 o
    cases o with
    | none => rfl
    | some t => rfl

/-- Voting-power snapshot of the worked example in spec.md section 8:
voter `x` has power 100, voter `y` has power 50. -/
def ex_power : String → Nat :=
  fun v => if v = "x" then 100 else if v = "y" then 50 else 0

/-- Allocation of voter `x` in the worked example: A gets 0.7, B gets 0.3. -/
def ex_votes_x : List Vote :=
  [{ option := "A", weight := 7/10 }, { option := "B", weight := 3/10 }]

/-- Allocation of voter `y` in the worked example: C gets full weight. -/
def ex_votes_y : List Vote := [{ option := "C", weight := 1 }]

/-- The worked example's gauge: the harness configuration, options A, B, C,
first epoch at time 1000, and the two allocations stored. -/
def ex_state (cap : Option Rat) : GaugeState :=
  { instantiate_gauge "owner" (suite_gauge_config "adapter" cap) ["A", "B", "C"] 1000 with
      votes := [("x", ex_votes_x), ("y", ex_votes_y)] }

/-- An adapter that accepts every dispatched set. -/
def ex_adapter_yes : List (String × Rat) → Bool := fun _ => true

/-- An adapter that rejects every dispatched set. -/
def ex_adapter_no : List (String × Rat) → Bool := fun _ => false

/-- State after a successful `Execute` of the worked example at time 1000. -/
def ex_executed_state : GaugeState :=
  { ex_state none with
      last_executed_set := some (selected_set ex_power (ex_state none))
      gauge := { (ex_state none).gauge with
        next_epoch := (ex_state none).gauge.next_epoch + (ex_state none).gauge.epoch_size } }

/-- Witness for C1 at the spec's 40-percent-cap scenario. -/
theorem cap_no_redistribution_witness :
    selected_set ex_power (ex_state (some (2/5))) =
      (selected_set ex_power
          { ex_state (some (2/5)) with
              gauge := { (ex_state (some (2/5))).gauge with
                max_available_percentage := none } }).map
        (fun e => (e.1, min e.2 ((2/5) * grand_total ex_power (ex_state (some (2/5)))))) ∧
    ∀ e ∈ selected_set ex_power (ex_state (some (2/5))),
      e.2 ≤ (2/5) * grand_total ex_power (ex_state (some (2/5))) :=
  cap_no_redistribution ex_power (ex_state (some (2/5))) (2/5) rfl

/-- Witness for C2 at the worked example executed exactly on schedule. -/
theorem next_epoch_strictly_additive_witness :
    ex_executed_state.gauge.next_epoch =
      (ex_state none).gauge.next_epoch + (ex_state none).gauge.epoch_size :=
  next_epoch_strictly_additive ex_power ex_adapter_yes 1000 (ex_state none)
    ex_executed_state (by with_unfolding_all rfl)

/-- Witness for C3 with an adapter that rejects the dispatched set. -/
theorem execute_atomic_on_adapter_failure_witness :
    run (ex_state none) (execute ex_power ex_adapter_no 1000 (ex_state none)) =
      ((ex_state none), some GaugeError.AdapterFailure) :=
  execute_atomic_on_adapter_failure ex_power ex_adapter_no 1000 (ex_state none)
    rfl (by decide) rfl

/-- Witness for C5 with an `Execute` attempt 500 seconds early. -/
theorem epoch_gating_witness :
    run (ex_state none) (execute ex_power ex_adapter_yes 500 (ex_state none)) =
      ((ex_state none), some GaugeError.EpochNotReached) ∧
    (∀ now1 st1 st2, execute ex_power ex_adapter_yes now1 st1 = Except.ok st2 →
      ∀ now2, now2 < st2.gauge.next_epoch →
        run st2 (execute ex_power ex_adapter_yes now2 st2) =
          (st2, some GaugeError.EpochNotReached)) :=
  epoch_gating ex_power ex_adapter_yes 500 (ex_state none) rfl (by decide)

/-- An invalid submission: duplicate option and weights summing above one. -/
def ex_bad_votes : List Vote :=
  [{ option := "A", weight := 7/10 }, { option := "A", weight := 6/10 }]

/-- Witness for C6 at the worked example with an invalid submission. -/
theorem vote_weight_invariant_witness :
    (valid_votes ex_bad_votes = false →
      run (ex_state none) (place_votes (ex_state none) "x" (some ex_bad_votes)) =
        ((ex_state none), some GaugeError.InvalidVoteWeight)) ∧
    (∀ st2, place_votes (ex_state none) "x" (some ex_bad_votes) = Except.ok st2 →
      ∀ r ∈ st2.votes, valid_votes r.2 = true) ∧
    (valid_votes ex_bad_votes = true ↔
      (∀ v ∈ ex_bad_votes, 0 < v.weight) ∧ (ex_bad_votes.map Vote.option).Nodup ∧
        (ex_bad_votes.map (fun v => v.weight)).sum ≤ 1) :=
  vote_weight_invariant (ex_state none) "x" ex_bad_votes rfl
    (by with_unfolding_all decide)

/-- A replacement allocation for voter `x`: all weight moved onto C. -/
def ex_new_votes : List Vote := [{ option := "C", weight := 1/2 }]

/-- State after voter `x` re-places votes with `ex_new_votes`. -/
def ex_replaced_state : GaugeState :=
  { ex_state none with votes := [("x", ex_new_votes), ("y", ex_votes_y)] }

/-- Witness for C7: voter `x` replaces the A/B allocation by one on C. -/
theorem place_votes_replace_semantics_witness :
    query_vote ex_replaced_state "x" = some ex_new_votes ∧
    (∀ opt, opt ∉ ex_new_votes.map Vote.option →
      voter_tally ex_power ex_replaced_state "x" opt = 0) ∧
    (∀ st3, place_votes (ex_state none) "x" none = Except.ok st3 →
      query_vote st3 "x" = none) :=
  place_votes_replace_semantics ex_power (ex_state none) "x" ex_new_votes
    ex_replaced_state (by with_unfolding_all rfl)

/-- The worked example's gauge after the owner stopped it. -/
def ex_stopped_state : GaugeState :=
  { ex_state none with gauge := { (ex_state none).gauge with is_stopped := true } }

/-- Witness for C8: the owner stops the worked example's gauge. -/
theorem stopped_is_terminal_witness :
    ex_stopped_state.gauge.is_stopped = true ∧
    query_last_executed_set ex_stopped_state = query_last_executed_set (ex_state none) ∧
    (∀ power, query_selected_set power ex_stopped_state =
      query_selected_set power (ex_state none)) ∧
    (∀ voter votes, run ex_stopped_state (place_votes ex_stopped_state voter votes) =
      (ex_stopped_state, some GaugeError.GaugeStopped)) ∧
    (∀ o, run ex_stopped_state (add_option ex_stopped_state o) =
      (ex_stopped_state, some GaugeError.GaugeStopped)) ∧
    (∀ power adapter_ok now,
      run ex_stopped_state (execute power adapter_ok now ex_stopped_state) =
        (ex_stopped_state, some GaugeError.GaugeStopped)) ∧
    (∀ s, (run ex_stopped_state (stop_gauge ex_stopped_state s)).1 = ex_stopped_state) ∧
    (∀ s u, (run ex_stopped_state (update_gauge ex_stopped_state s u)).1 = ex_stopped_state) ∧
    (∀ o, (migrate ex_stopped_state o).gauge.is_stopped = true) :=
  stopped_is_terminal (ex_state none) "owner" ex_stopped_state (by with_unfolding_all rfl)

/-- A freshly created gauge with three options and no votes placed yet. -/
def ex_empty_state : GaugeState :=
  instantiate_gauge "owner" (suite_gauge_config "adapter" none) ["A", "B", "C"] 1000

/-- Witness for C9 on a gauge with no votes, hence a zero grand total. -/
theorem zero_total_empty_selection_witness :
    query_selected_set ex_power ex_empty_state = [] :=
  zero_total_empty_selection ex_power ex_empty_state (by with_unfolding_all decide)

/-- Witness for C10 at the worked example executed on schedule. -/
theorem last_executed_set_lifecycle_witness :
    query_last_executed_set ex_executed_state = some (selected_set ex_power (ex_state none)) ∧
    (∀ owner cfg options first_epoch,
      query_last_executed_set (instantiate_gauge owner cfg options first_epoch) = none) ∧
    (∀ st0 voter votes,
      ((run st0 (place_votes st0 voter votes)).1).last_executed_set = st0.last_executed_set) ∧
    (∀ st0 o, ((run st0 (add_option st0 o)).1).last_executed_set = st0.last_executed_set) ∧
    (∀ st0 s, ((run st0 (stop_gauge st0 s)).1).last_executed_set = st0.last_executed_set) ∧
    (∀ st0 s u,
      ((run st0 (update_gauge st0 s u)).1).last_executed_set = st0.last_executed_set) ∧
    (∀ st0 o, (migrate st0 o).last_executed_set = st0.last_executed_set) :=
  last_executed_set_lifecycle ex_power ex_adapter_yes 1000 (ex_state none)
    ex_executed_state (by with_unfolding_all rfl)
